import Mathlib

/-!
Verification of the MILP energy-dispatch optimizer of the vidyutai repository.

This file gives a shallow embedding of the optimisation core found in
`src/ai-service/app/api/endpoints/optimization.py` (single-load variant,
`run_optimization`) and
`src/ai-service/app/api/endpoints/demand_optimization.py` (multi-load variant,
`run_demand_optimization`).

Real numbers of the Python source are modelled by `ℚ` (all constants of the
source are decimal literals, hence exact rationals).  Time-indexed profiles
consumed by the model builder are modelled as total functions `ℕ → ℚ`; the raw
input series fed to the normalisation layer are modelled as `List ℚ`, matching
the Python lists.  A solver assignment of the decision variables is a record of
functions `ℕ → ℚ`; binary variables are rational-valued with an explicit
`= 0 ∨ = 1` feasibility condition, matching the MILP relaxation plus
integrality, and feasibility of an assignment is the conjunction of every
variable bound and every constraint the Python code adds to the `LpProblem`.
-/

namespace VidyutAI

/-! ## Profile normalisation (`upsample_profile` and the resampling branches) -/

/-- Linear interpolation of a list sampled at integer hour marks, mirroring
`np.interp(x, np.arange(len(fp)), fp)`: clamped to the end values outside the
knot range, piecewise linear inside. -/
def interpHourly (fp : List ℚ) (x : ℚ) : ℚ :=
  if x ≤ 0 then fp.getD 0 0
  else if ((fp.length : ℚ) - 1) ≤ x then fp.getD (fp.length - 1) 0
  else
    let k : ℕ := (⌊x⌋).toNat
    fp.getD k 0 + (x - (k : ℚ)) * (fp.getD (k + 1) 0 - fp.getD k 0)

/-- Embedding of `upsample_profile(hourly_profile, steps_per_hour, num_days)`:
`fine_times = np.linspace(0, len-1, len*steps_per_hour)`, interpolate the base
profile onto those points, and tile the interpolated day `num_days` times. -/
def upsample_profile (hourly_profile : List ℚ) (steps_per_hour num_days : ℕ) : List ℚ :=
  let n := hourly_profile.length * steps_per_hour
  let upsampled_single_day :=
    (List.range n).map (fun (i : ℕ) =>
      interpHourly hourly_profile
        (((i : ℚ) * ((hourly_profile.length : ℚ) - 1)) / ((n : ℚ) - 1)))
  (List.replicate num_days upsampled_single_day).flatten

/-- Embedding of the single-load resampling branch (`optimization.py` lines
118-128): load and price are passed through together when the LOAD series
already has the expected number of steps, otherwise BOTH are upsampled. -/
def normalizeLoadPrice (expectedSteps stepsPerHour numDays : ℕ)
    (loadProfile24h priceProfile24h : List ℚ) : List ℚ × List ℚ :=
  if loadProfile24h.length = expectedSteps then (loadProfile24h, priceProfile24h)
  else (upsample_profile loadProfile24h stepsPerHour numDays,
        upsample_profile priceProfile24h stepsPerHour numDays)

/-- Embedding of the per-series resampling branch used for the solar profile
(`optimization.py` lines 131-134) and for every series of the multi-load
variant (`demand_optimization.py` lines 134-150): the series is passed through
exactly when its own length matches the expected number of steps. -/
def normalizeSeries (expectedSteps stepsPerHour numDays : ℕ) (base : List ℚ) : List ℚ :=
  if base.length = expectedSteps then base
  else upsample_profile base stepsPerHour numDays

/-! ## Scalar parameter normalisation (`optimization.py` lines 42-66,
`demand_optimization.py` lines 43-81) -/

/-- `num_days = max(1, min(30, int(params["num_days"])))`. -/
def normNumDays (n : Int) : Int := max 1 (min 30 n)

/-- `if time_resolution_minutes not in [15, 30, 60]: time_resolution_minutes = 30`. -/
def normTimeResolution (r : Int) : Int :=
  if r = 15 ∨ r = 30 ∨ r = 60 then r else 30

/-- `grid_connection = max(100, float(...))`. -/
def normGridConnection (g : ℚ) : ℚ := max 100 g

/-- `solar_connection = max(0, float(...))`. -/
def normSolarConnection (s : ℚ) : ℚ := max 0 s

/-- `battery_capacity_wh = max(1000, float(...))`. -/
def normBatteryCapacityWh (b : ℚ) : ℚ := max 1000 b

/-- `battery_voltage = max(12, float(...))`. -/
def normBatteryVoltage (v : ℚ) : ℚ := max 12 v

/-- `max(0, float(...))`, used for diesel capacity, fuel price, every unit
cost, and the hydrogen capacities. -/
def normNonnegative (x : ℚ) : ℚ := max 0 x

/-- `fuel_cell_efficiency_percent = max(0, min(1, float(...)))`. -/
def normEfficiencyFraction (e : ℚ) : ℚ := max 0 (min 1 e)

/-- Modelled from the spec: `resolution_minutes` "snapped to the nearest of
{15,30,60}" — the candidate minimising the absolute distance to the raw value
(smaller candidate preferred on ties).  Used only to compare the spec's claimed
mapping with the code's `normTimeResolution`. -/
def spec_snapResolution (r : Int) : Int :=
  if |r - 15| ≤ |r - 30| ∧ |r - 15| ≤ |r - 60| then 15
  else if |r - 30| ≤ |r - 60| then 30
  else 60

/-- Modelled from the spec: "capacities/costs ... clamped to ≥0". -/
def spec_clampNonneg (x : ℚ) : ℚ := max 0 x

/-! ## Solver status handling (`optimization.py` lines 310-319,
`demand_optimization.py` lines 313-320) -/

/-- pulp's `LpStatusOptimal`. -/
def lpStatusOptimal : Int := 1

/-- pulp's `LpStatus.get(status, f"Unknown status {status}")` lookup. -/
def lpStatusString (s : Int) : String :=
  if s = 1 then "Optimal"
  else if s = 0 then "Not Solved"
  else if s = -1 then "Infeasible"
  else if s = -2 then "Unbounded"
  else if s = -3 then "Undefined"
  else "Unknown status " ++ toString s

/-- The extra sentence the single-load variant appends when the CO2 objective
was requested. -/
def co2Suffix (objective_type : String) : String :=
  if objective_type = "co2" then
    " (CO2 objective). The problem may be infeasible or unbounded. Check constraints and parameters."
  else ""

/-- Post-solve gate of `run_optimization`: any non-optimal status raises
`ValueError` with the solver's status string and nothing downstream of the
check (summary, plots) is produced; on optimal status the summary is built.
`mkSummary` stands for the result-aggregation continuation. -/
def runResultS {α : Type} (objective_type : String) (status : Int)
    (mkSummary : Unit → α) : Except String α :=
  if status ≠ lpStatusOptimal then
    Except.error
      ("Optimization failed with status: " ++ lpStatusString status
        ++ co2Suffix objective_type)
  else Except.ok (mkSummary ())

/-- Post-solve gate of `run_demand_optimization` (no CO2 suffix; summary,
plot and chart data are only built on optimal status). -/
def runResultM {α : Type} (status : Int) (mkSummary : Unit → α) : Except String α :=
  if status ≠ lpStatusOptimal then
    Except.error ("Optimization failed with status: " ++ lpStatusString status)
  else Except.ok (mkSummary ())

/-! ## Shared model constants (identical in both variants) -/

/-- `H2_LHV = 33.3` kWh/kg. -/
def H2LHV : ℚ := 33.3

/-- `bess_min_soc = 0.1`. -/
def bessMinSoc : ℚ := 0.1

/-- `bess_max_soc = 0.9`. -/
def bessMaxSoc : ℚ := 0.9

/-- `bess_charge_efficiency = 0.95`. -/
def bessChargeEfficiency : ℚ := 0.95

/-- `bess_discharge_efficiency = 0.95`. -/
def bessDischargeEfficiency : ℚ := 0.95

/-- `fuel_slope = 0.18` l/kWh. -/
def fuelSlope : ℚ := 0.18

/-- `fuel_intercept = 48` l. -/
def fuelIntercept : ℚ := 48

/-- `h2_min_soc = 0.1`. -/
def h2MinSoc : ℚ := 0.1

/-- `h2_max_soc = 0.9`. -/
def h2MaxSoc : ℚ := 0.9

/-! ## Single-load variant: model data, decision variables, constraints -/

/-- The already-normalised data from which `run_optimization` builds its MILP:
horizon parameters, the three normalised profiles (modelled as total functions
of the timestep index), and the clamped scalar parameters. -/
structure ModelDataS where
  numDays : ℕ
  resolutionMinutes : ℕ
  loadProfile : ℕ → ℚ
  priceProfile : ℕ → ℚ
  solarProfile : ℕ → ℚ
  gridConnection : ℚ
  solarConnection : ℚ
  batteryCapacityWh : ℚ
  dieselCapacity : ℚ
  fuelPrice : ℚ
  pvEnergyCost : ℚ
  loadCurtailCost : ℚ
  batteryOmCost : ℚ
  electrolyzerCapacity : ℚ
  fuelCellCapacity : ℚ
  h2TankCapacity : ℚ
  fuelCellEfficiencyPercent : ℚ
  fuelCellOmCost : ℚ
  electrolyzerOmCost : ℚ

namespace ModelDataS

/-- `step_size = time_resolution_minutes / 60.0`. -/
def stepSize (md : ModelDataS) : ℚ := (md.resolutionMinutes : ℚ) / 60

/-- `steps_per_hour = int(60 / time_resolution_minutes)`. -/
def stepsPerHour (md : ModelDataS) : ℕ := 60 / md.resolutionMinutes

/-- `time_horizon = num_days * 24 * steps_per_hour`. -/
def timeHorizon (md : ModelDataS) : ℕ := md.numDays * 24 * md.stepsPerHour

/-- `battery_storage_energy = battery_capacity_wh / 1000.0` (kWh). -/
def batteryStorageEnergy (md : ModelDataS) : ℚ := md.batteryCapacityWh / 1000

/-- `battery_power = battery_storage_energy * 0.5` (0.5C rate). -/
def batteryPower (md : ModelDataS) : ℚ := md.batteryStorageEnergy * 0.5

/-- `bess_charge_capacity = battery_power`. -/
def bessChargeCapacity (md : ModelDataS) : ℚ := md.batteryPower

/-- `bess_discharge_capacity = battery_power`. -/
def bessDischargeCapacity (md : ModelDataS) : ℚ := md.batteryPower

/-- `bess_energy_capacity = battery_storage_energy`. -/
def bessEnergyCapacity (md : ModelDataS) : ℚ := md.batteryStorageEnergy

/-- `diesel_min_power = 0.1 * diesel_capacity`. -/
def dieselMinPower (md : ModelDataS) : ℚ := 0.1 * md.dieselCapacity

/-- `diesel_max_power = diesel_capacity`. -/
def dieselMaxPower (md : ModelDataS) : ℚ := md.dieselCapacity

/-- `fuel_cell_efficiency_kwh_per_kg = H2_LHV * fuel_cell_efficiency_percent`. -/
def fuelCellEfficiencyKwhPerKg (md : ModelDataS) : ℚ :=
  H2LHV * md.fuelCellEfficiencyPercent

/-- `fc_conversion_rate = 1.0 / max(1e-9, fuel_cell_efficiency_kwh_per_kg)`. -/
def fcConversionRate (md : ModelDataS) : ℚ :=
  1 / max (1 / 1000000000) md.fuelCellEfficiencyKwhPerKg

/-- `P_break1 = electrolyzer_capacity * 0.20`. -/
def PBreak1 (md : ModelDataS) : ℚ := md.electrolyzerCapacity * 0.20

/-- `P_break2 = electrolyzer_capacity`. -/
def PBreak2 (md : ModelDataS) : ℚ := md.electrolyzerCapacity

/-- `H2_at_break1 = (P_break1 * 0.80) / H2_LHV`. -/
def H2AtBreak1 (md : ModelDataS) : ℚ := md.PBreak1 * 0.80 / H2LHV

/-- `H2_at_break2 = (P_break2 * 0.75) / H2_LHV`. -/
def H2AtBreak2 (md : ModelDataS) : ℚ := md.PBreak2 * 0.75 / H2LHV

/-- `slope_s1 = H2_at_break1 / P_break1 if P_break1 > 0 else 0`. -/
def slopeS1 (md : ModelDataS) : ℚ :=
  if 0 < md.PBreak1 then md.H2AtBreak1 / md.PBreak1 else 0

/-- `slope_s2 = (H2_at_break2 - H2_at_break1) / (P_break2 - P_break1)` when
that denominator is positive, else 0. -/
def slopeS2 (md : ModelDataS) : ℚ :=
  if 0 < md.PBreak2 - md.PBreak1 then
    (md.H2AtBreak2 - md.H2AtBreak1) / (md.PBreak2 - md.PBreak1)
  else 0

/-- `width_s1 = P_break1`. -/
def widthS1 (md : ModelDataS) : ℚ := md.PBreak1

/-- `width_s2 = P_break2 - P_break1`. -/
def widthS2 (md : ModelDataS) : ℚ := md.PBreak2 - md.PBreak1

end ModelDataS

/-- One assignment of all decision variables of the single-load MILP, one
rational value per variable per timestep. -/
structure AssignS where
  P_grid : ℕ → ℚ
  P_load_curt : ℕ → ℚ
  P_diesel : ℕ → ℚ
  z_diesel : ℕ → ℚ
  F_diesel : ℕ → ℚ
  P_charge : ℕ → ℚ
  P_discharge : ℕ → ℚ
  E_battery : ℕ → ℚ
  z_bess : ℕ → ℚ
  P_pv_used : ℕ → ℚ
  P_solar_curt : ℕ → ℚ
  P_elec : ℕ → ℚ
  P_fc : ℕ → ℚ
  E_h2 : ℕ → ℚ
  z_h2 : ℕ → ℚ
  P_elec_s1 : ℕ → ℚ
  P_elec_s2 : ℕ → ℚ
  z_elec_s2 : ℕ → ℚ
  H_produced : ℕ → ℚ
  P_grid_import : ℕ → ℚ

/-- Feasibility of an assignment for the single-load MILP: every variable
bound from the `LpVariable` declarations (lines 174-195), integrality of the
binaries, and every constraint added to the model (lines 198-254 of
`optimization.py`). -/
structure FeasibleS (md : ModelDataS) (a : AssignS) : Prop where
  grid_bounds : ∀ t < md.timeHorizon,
    -md.gridConnection ≤ a.P_grid t ∧ a.P_grid t ≤ md.gridConnection
  load_curt_lb : ∀ t < md.timeHorizon, 0 ≤ a.P_load_curt t
  diesel_var_bounds : ∀ t < md.timeHorizon,
    0 ≤ a.P_diesel t ∧ a.P_diesel t ≤ md.dieselMaxPower
  z_diesel_bin : ∀ t < md.timeHorizon, a.z_diesel t = 0 ∨ a.z_diesel t = 1
  fuel_lb : ∀ t < md.timeHorizon, 0 ≤ a.F_diesel t
  charge_var_bounds : ∀ t < md.timeHorizon,
    0 ≤ a.P_charge t ∧ a.P_charge t ≤ md.bessChargeCapacity
  discharge_var_bounds : ∀ t < md.timeHorizon,
    0 ≤ a.P_discharge t ∧ a.P_discharge t ≤ md.bessDischargeCapacity
  battery_level_bounds : ∀ t < md.timeHorizon,
    bessMinSoc * md.bessEnergyCapacity ≤ a.E_battery t
      ∧ a.E_battery t ≤ bessMaxSoc * md.bessEnergyCapacity
  z_bess_bin : ∀ t < md.timeHorizon, a.z_bess t = 0 ∨ a.z_bess t = 1
  pv_used_lb : ∀ t < md.timeHorizon, 0 ≤ a.P_pv_used t
  solar_curt_lb : ∀ t < md.timeHorizon, 0 ≤ a.P_solar_curt t
  elec_var_bounds : ∀ t < md.timeHorizon,
    0 ≤ a.P_elec t ∧ a.P_elec t ≤ md.electrolyzerCapacity
  fc_var_bounds : ∀ t < md.timeHorizon,
    0 ≤ a.P_fc t ∧ a.P_fc t ≤ md.fuelCellCapacity
  h2_level_bounds : ∀ t < md.timeHorizon,
    h2MinSoc * md.h2TankCapacity ≤ a.E_h2 t
      ∧ a.E_h2 t ≤ h2MaxSoc * md.h2TankCapacity
  z_h2_bin : ∀ t < md.timeHorizon, a.z_h2 t = 0 ∨ a.z_h2 t = 1
  s1_var_bounds : ∀ t < md.timeHorizon,
    0 ≤ a.P_elec_s1 t ∧ a.P_elec_s1 t ≤ md.widthS1
  s2_var_bounds : ∀ t < md.timeHorizon,
    0 ≤ a.P_elec_s2 t ∧ a.P_elec_s2 t ≤ md.widthS2
  z_elec_s2_bin : ∀ t < md.timeHorizon, a.z_elec_s2 t = 0 ∨ a.z_elec_s2 t = 1
  h_produced_lb : ∀ t < md.timeHorizon, 0 ≤ a.H_produced t
  grid_import_lb : ∀ t < md.timeHorizon, 0 ≤ a.P_grid_import t
  power_balance : ∀ t < md.timeHorizon,
    a.P_pv_used t + a.P_diesel t + a.P_discharge t + a.P_grid t + a.P_fc t
      = (md.loadProfile t - a.P_load_curt t) + a.P_charge t + a.P_elec t
  load_curt_max : ∀ t < md.timeHorizon, a.P_load_curt t ≤ md.loadProfile t
  pv_balance : ∀ t < md.timeHorizon,
    a.P_pv_used t + a.P_solar_curt t = md.solarProfile t * md.solarConnection
  diesel_min : ∀ t < md.timeHorizon,
    md.dieselMinPower * a.z_diesel t ≤ a.P_diesel t
  diesel_max : ∀ t < md.timeHorizon,
    a.P_diesel t ≤ md.dieselMaxPower * a.z_diesel t
  fuel_cons : ∀ t < md.timeHorizon,
    fuelSlope * a.P_diesel t + fuelIntercept * a.z_diesel t ≤ a.F_diesel t
  battery_init : a.E_battery 0 = 0.5 * md.bessEnergyCapacity
  battery_dynamics : ∀ t, t + 1 < md.timeHorizon →
    a.E_battery (t + 1)
      = a.E_battery t
        + md.stepSize * (a.P_charge t * bessChargeEfficiency
            - a.P_discharge t * (1 / bessDischargeEfficiency))
  charge_limit : ∀ t < md.timeHorizon,
    a.P_charge t ≤ md.bessChargeCapacity * (1 - a.z_bess t)
  discharge_limit : ∀ t < md.timeHorizon,
    a.P_discharge t ≤ md.bessDischargeCapacity * a.z_bess t
  battery_cyclic_soc :
    0.5 * md.bessEnergyCapacity
      = a.E_battery (md.timeHorizon - 1)
        + md.stepSize * (a.P_charge (md.timeHorizon - 1) * bessChargeEfficiency
            - a.P_discharge (md.timeHorizon - 1) * (1 / bessDischargeEfficiency))
  h2_init : a.E_h2 0 = 0.5 * md.h2TankCapacity
  elec_sum : ∀ t < md.timeHorizon, a.P_elec t = a.P_elec_s1 t + a.P_elec_s2 t
  h2_prod : ∀ t < md.timeHorizon,
    a.H_produced t = a.P_elec_s1 t * md.slopeS1 + a.P_elec_s2 t * md.slopeS2
  elec_s1_before_s2 : ∀ t < md.timeHorizon,
    md.widthS1 * a.z_elec_s2 t ≤ a.P_elec_s1 t
  elec_s2_activation : ∀ t < md.timeHorizon,
    a.P_elec_s2 t ≤ md.widthS2 * a.z_elec_s2 t
  fc_limit : ∀ t < md.timeHorizon, a.P_fc t ≤ md.fuelCellCapacity * a.z_h2 t
  elec_limit : ∀ t < md.timeHorizon,
    a.P_elec t ≤ md.electrolyzerCapacity * (1 - a.z_h2 t)
  h2_dyn : ∀ t, t + 1 < md.timeHorizon →
    a.E_h2 (t + 1)
      = a.E_h2 t + a.H_produced t * md.stepSize
        - a.P_fc t * md.stepSize * md.fcConversionRate
  h2_cyclic :
    a.E_h2 0
      = a.E_h2 (md.timeHorizon - 1)
        + a.H_produced (md.timeHorizon - 1) * md.stepSize
        - a.P_fc (md.timeHorizon - 1) * md.stepSize * md.fcConversionRate
  grid_import_ge_pgrid : ∀ t < md.timeHorizon, a.P_grid t ≤ a.P_grid_import t
  grid_import_ge_0 : ∀ t < md.timeHorizon, 0 ≤ a.P_grid_import t

/-- The cost objective of the single-load variant (`optimization.py` lines
287-296): every term, the diesel fuel term included, carries `step_size`, and
the grid term prices the dedicated import variable `P_grid_import`. -/
def costObjectiveS (md : ModelDataS) (a : AssignS) : ℚ :=
  ∑ t ∈ Finset.range md.timeHorizon,
    (md.stepSize * md.priceProfile t * a.P_grid_import t
      + md.stepSize * md.loadCurtailCost * a.P_load_curt t
      + md.stepSize * md.fuelPrice * a.F_diesel t
      + md.stepSize * md.pvEnergyCost * a.P_pv_used t
      + md.stepSize * md.batteryOmCost * a.P_discharge t
      + md.stepSize * md.fuelCellOmCost * a.P_fc t
      + md.stepSize * md.electrolyzerOmCost * a.P_elec t)

/-- The spec's cost formula (§4.4), with `GridImport[t]` read as the model's
dedicated grid-import variable: `Σ_t step_size × [price×GridImport + fuel_price×Fuel +
pv_unit_cost×PV_used + battery_om×Discharge + fuelcell_om×FuelCell +
electrolyzer_om×Electrolyzer + curtailment_penalty×Curtailed]`. -/
def specCostFormulaS (md : ModelDataS) (a : AssignS) : ℚ :=
  ∑ t ∈ Finset.range md.timeHorizon,
    md.stepSize * (md.priceProfile t * a.P_grid_import t
      + md.fuelPrice * a.F_diesel t
      + md.pvEnergyCost * a.P_pv_used t
      + md.batteryOmCost * a.P_discharge t
      + md.fuelCellOmCost * a.P_fc t
      + md.electrolyzerOmCost * a.P_elec t
      + md.loadCurtailCost * a.P_load_curt t)

/-- The spec's cost formula with `GridImport[t]` read literally as the
non-negative part of the signed grid power, as claim C1 words it. -/
def specCostPosS (md : ModelDataS) (a : AssignS) : ℚ :=
  ∑ t ∈ Finset.range md.timeHorizon,
    md.stepSize * (md.priceProfile t * max 0 (a.P_grid t)
      + md.fuelPrice * a.F_diesel t
      + md.pvEnergyCost * a.P_pv_used t
      + md.batteryOmCost * a.P_discharge t
      + md.fuelCellOmCost * a.P_fc t
      + md.electrolyzerOmCost * a.P_elec t
      + md.loadCurtailCost * a.P_load_curt t)

/-- Replace only the grid connection capacity of a single-load model. -/
def setGridS (md : ModelDataS) (g : ℚ) : ModelDataS :=
  { md with gridConnection := g }

/-- An assignment is optimal for the single-load model when it is feasible and
no feasible assignment has a smaller cost objective. -/
def IsOptimalS (md : ModelDataS) (a : AssignS) : Prop :=
  FeasibleS md a ∧ ∀ b, FeasibleS md b → costObjectiveS md a ≤ costObjectiveS md b

/-! ## Multi-load variant: model data, decision variables, constraints -/

/-- Python's `max(list)` on a nonempty list (0 on the empty list, unused by
the source, which validates length ≥ 24 first). -/
def pyMax : List ℚ → ℚ
  | [] => 0
  | x :: rest => rest.foldl max x

/-- Indexing `profile[t]` of a Python list. -/
def loadAt (l : List ℚ) (t : ℕ) : ℚ := l.getD t 0

/-- The already-normalised data from which `run_demand_optimization` builds
its MILP: the five per-load profiles (kept as lists because the big-M constant
is computed from their maxima), price and solar profiles, and the clamped
scalar parameters including the three per-load curtailment penalties. -/
structure ModelDataM where
  numDays : ℕ
  resolutionMinutes : ℕ
  load1 : List ℚ
  load2 : List ℚ
  load3 : List ℚ
  load4 : List ℚ
  load5 : List ℚ
  priceProfile : ℕ → ℚ
  solarProfile : ℕ → ℚ
  gridConnection : ℚ
  solarConnection : ℚ
  batteryCapacityWh : ℚ
  dieselCapacity : ℚ
  fuelPrice : ℚ
  pvEnergyCost : ℚ
  batteryOmCost : ℚ
  electrolyzerCapacity : ℚ
  fuelCellCapacity : ℚ
  h2TankCapacity : ℚ
  fuelCellEfficiencyPercent : ℚ
  fuelCellOmCost : ℚ
  electrolyzerOmCost : ℚ
  curtailPenalty3 : ℚ
  curtailPenalty4 : ℚ
  curtailPenalty5 : ℚ

namespace ModelDataM

/-- `step_size = time_resolution_minutes / 60.0`. -/
def stepSize (md : ModelDataM) : ℚ := (md.resolutionMinutes : ℚ) / 60

/-- `steps_per_hour = int(60 / time_resolution_minutes)`. -/
def stepsPerHour (md : ModelDataM) : ℕ := 60 / md.resolutionMinutes

/-- `time_horizon = num_days * 24 * steps_per_hour`. -/
def timeHorizon (md : ModelDataM) : ℕ := md.numDays * 24 * md.stepsPerHour

/-- `battery_storage_energy = battery_capacity_wh / 1000.0`. -/
def batteryStorageEnergy (md : ModelDataM) : ℚ := md.batteryCapacityWh / 1000

/-- `battery_power = battery_storage_energy * 0.5`. -/
def batteryPower (md : ModelDataM) : ℚ := md.batteryStorageEnergy * 0.5

/-- `bess_charge_capacity = battery_power`. -/
def bessChargeCapacity (md : ModelDataM) : ℚ := md.batteryPower

/-- `bess_discharge_capacity = battery_power`. -/
def bessDischargeCapacity (md : ModelDataM) : ℚ := md.batteryPower

/-- `bess_energy_capacity = battery_storage_energy`. -/
def bessEnergyCapacity (md : ModelDataM) : ℚ := md.batteryStorageEnergy

/-- `diesel_min_power = 0.1 * diesel_capacity`. -/
def dieselMinPower (md : ModelDataM) : ℚ := 0.1 * md.dieselCapacity

/-- `diesel_max_power = diesel_capacity`. -/
def dieselMaxPower (md : ModelDataM) : ℚ := md.dieselCapacity

/-- `fuel_cell_efficiency_kwh_per_kg = H2_LHV * fuel_cell_efficiency_percent`. -/
def fuelCellEfficiencyKwhPerKg (md : ModelDataM) : ℚ :=
  H2LHV * md.fuelCellEfficiencyPercent

/-- `fc_conversion_rate = 1.0 / max(1e-9, fuel_cell_efficiency_kwh_per_kg)`. -/
def fcConversionRate (md : ModelDataM) : ℚ :=
  1 / max (1 / 1000000000) md.fuelCellEfficiencyKwhPerKg

/-- `P_break1 = electrolyzer_capacity * 0.20`. -/
def PBreak1 (md : ModelDataM) : ℚ := md.electrolyzerCapacity * 0.20

/-- `P_break2 = electrolyzer_capacity`. -/
def PBreak2 (md : ModelDataM) : ℚ := md.electrolyzerCapacity

/-- `H2_at_break1 = (P_break1 * 0.80) / H2_LHV`. -/
def H2AtBreak1 (md : ModelDataM) : ℚ := md.PBreak1 * 0.80 / H2LHV

/-- `H2_at_break2 = (P_break2 * 0.75) / H2_LHV`. -/
def H2AtBreak2 (md : ModelDataM) : ℚ := md.PBreak2 * 0.75 / H2LHV

/-- `slope_s1 = H2_at_break1 / P_break1 if P_break1 > 0 else 0`. -/
def slopeS1 (md : ModelDataM) : ℚ :=
  if 0 < md.PBreak1 then md.H2AtBreak1 / md.PBreak1 else 0

/-- `slope_s2`, zero when the second segment has no width. -/
def slopeS2 (md : ModelDataM) : ℚ :=
  if 0 < md.PBreak2 - md.PBreak1 then
    (md.H2AtBreak2 - md.H2AtBreak1) / (md.PBreak2 - md.PBreak1)
  else 0

/-- `width_s1 = P_break1`. -/
def widthS1 (md : ModelDataM) : ℚ := md.PBreak1

/-- `width_s2 = P_break2 - P_break1`. -/
def widthS2 (md : ModelDataM) : ℚ := md.PBreak2 - md.PBreak1

/-- `M_curt = sum(max(load_profiles[i]) for i in dr_loads)`: the big-M of the
curtailment indicator is the sum of the curtailable loads' peak demands
(`demand_optimization.py` line 216). -/
def MCurt (md : ModelDataM) : ℚ := pyMax md.load3 + pyMax md.load4 + pyMax md.load5

end ModelDataM

/-- One assignment of all decision variables of the multi-load MILP. -/
structure AssignM where
  P_grid : ℕ → ℚ
  P_diesel : ℕ → ℚ
  z_diesel : ℕ → ℚ
  F_diesel : ℕ → ℚ
  P_charge : ℕ → ℚ
  P_discharge : ℕ → ℚ
  E_battery : ℕ → ℚ
  z_bess : ℕ → ℚ
  P_pv_used : ℕ → ℚ
  P_solar_curt : ℕ → ℚ
  P_elec : ℕ → ℚ
  P_fc : ℕ → ℚ
  E_h2 : ℕ → ℚ
  z_h2 : ℕ → ℚ
  P_elec_s1 : ℕ → ℚ
  P_elec_s2 : ℕ → ℚ
  z_elec_s2 : ℕ → ℚ
  H_produced : ℕ → ℚ
  P_served1 : ℕ → ℚ
  P_served2 : ℕ → ℚ
  P_served3 : ℕ → ℚ
  P_served4 : ℕ → ℚ
  P_served5 : ℕ → ℚ
  P_curt3 : ℕ → ℚ
  P_curt4 : ℕ → ℚ
  P_curt5 : ℕ → ℚ
  z_curt : ℕ → ℚ

/-- Feasibility for the multi-load MILP: variable bounds (lines 190-217),
integrality of the binaries, and the constraints of lines 221-285 of
`demand_optimization.py` (loads 1-2 critical, loads 3-5 curtailable, the
curtailment indicator and export lockout, and the shared physical model). -/
structure FeasibleM (md : ModelDataM) (a : AssignM) : Prop where
  grid_bounds : ∀ t < md.timeHorizon,
    -md.gridConnection ≤ a.P_grid t ∧ a.P_grid t ≤ md.gridConnection
  diesel_var_bounds : ∀ t < md.timeHorizon,
    0 ≤ a.P_diesel t ∧ a.P_diesel t ≤ md.dieselMaxPower
  z_diesel_bin : ∀ t < md.timeHorizon, a.z_diesel t = 0 ∨ a.z_diesel t = 1
  fuel_lb : ∀ t < md.timeHorizon, 0 ≤ a.F_diesel t
  charge_var_bounds : ∀ t < md.timeHorizon,
    0 ≤ a.P_charge t ∧ a.P_charge t ≤ md.bessChargeCapacity
  discharge_var_bounds : ∀ t < md.timeHorizon,
    0 ≤ a.P_discharge t ∧ a.P_discharge t ≤ md.bessDischargeCapacity
  battery_level_bounds : ∀ t < md.timeHorizon,
    bessMinSoc * md.bessEnergyCapacity ≤ a.E_battery t
      ∧ a.E_battery t ≤ bessMaxSoc * md.bessEnergyCapacity
  z_bess_bin : ∀ t < md.timeHorizon, a.z_bess t = 0 ∨ a.z_bess t = 1
  pv_used_lb : ∀ t < md.timeHorizon, 0 ≤ a.P_pv_used t
  solar_curt_lb : ∀ t < md.timeHorizon, 0 ≤ a.P_solar_curt t
  elec_var_bounds : ∀ t < md.timeHorizon,
    0 ≤ a.P_elec t ∧ a.P_elec t ≤ md.electrolyzerCapacity
  fc_var_bounds : ∀ t < md.timeHorizon,
    0 ≤ a.P_fc t ∧ a.P_fc t ≤ md.fuelCellCapacity
  h2_level_bounds : ∀ t < md.timeHorizon,
    h2MinSoc * md.h2TankCapacity ≤ a.E_h2 t
      ∧ a.E_h2 t ≤ h2MaxSoc * md.h2TankCapacity
  z_h2_bin : ∀ t < md.timeHorizon, a.z_h2 t = 0 ∨ a.z_h2 t = 1
  s1_var_bounds : ∀ t < md.timeHorizon,
    0 ≤ a.P_elec_s1 t ∧ a.P_elec_s1 t ≤ md.widthS1
  s2_var_bounds : ∀ t < md.timeHorizon,
    0 ≤ a.P_elec_s2 t ∧ a.P_elec_s2 t ≤ md.widthS2
  z_elec_s2_bin : ∀ t < md.timeHorizon, a.z_elec_s2 t = 0 ∨ a.z_elec_s2 t = 1
  h_produced_lb : ∀ t < md.timeHorizon, 0 ≤ a.H_produced t
  served_lb : ∀ t < md.timeHorizon,
    0 ≤ a.P_served1 t ∧ 0 ≤ a.P_served2 t ∧ 0 ≤ a.P_served3 t
      ∧ 0 ≤ a.P_served4 t ∧ 0 ≤ a.P_served5 t
  curt_lb : ∀ t < md.timeHorizon,
    0 ≤ a.P_curt3 t ∧ 0 ≤ a.P_curt4 t ∧ 0 ≤ a.P_curt5 t
  z_curt_bin : ∀ t < md.timeHorizon, a.z_curt t = 0 ∨ a.z_curt t = 1
  crit_load_served : ∀ t < md.timeHorizon,
    a.P_served1 t = loadAt md.load1 t ∧ a.P_served2 t = loadAt md.load2 t
  dr_load_balance : ∀ t < md.timeHorizon,
    a.P_served3 t + a.P_curt3 t = loadAt md.load3 t
      ∧ a.P_served4 t + a.P_curt4 t = loadAt md.load4 t
      ∧ a.P_served5 t + a.P_curt5 t = loadAt md.load5 t
  curt_indicator : ∀ t < md.timeHorizon,
    a.P_curt3 t + a.P_curt4 t + a.P_curt5 t ≤ md.MCurt * a.z_curt t
  no_export_when_curt : ∀ t < md.timeHorizon,
    -md.gridConnection * (1 - a.z_curt t) ≤ a.P_grid t
  power_balance : ∀ t < md.timeHorizon,
    a.P_pv_used t + a.P_diesel t + a.P_discharge t + a.P_grid t + a.P_fc t
      = (a.P_served1 t + a.P_served2 t + a.P_served3 t + a.P_served4 t
          + a.P_served5 t)
        + a.P_charge t + a.P_elec t
  pv_balance : ∀ t < md.timeHorizon,
    a.P_pv_used t + a.P_solar_curt t = md.solarProfile t * md.solarConnection
  diesel_min : ∀ t < md.timeHorizon,
    md.dieselMinPower * a.z_diesel t ≤ a.P_diesel t
  diesel_max : ∀ t < md.timeHorizon,
    a.P_diesel t ≤ md.dieselMaxPower * a.z_diesel t
  fuel_cons : ∀ t < md.timeHorizon,
    fuelSlope * a.P_diesel t + fuelIntercept * a.z_diesel t ≤ a.F_diesel t
  battery_init : a.E_battery 0 = 0.5 * md.bessEnergyCapacity
  battery_dynamics : ∀ t, t + 1 < md.timeHorizon →
    a.E_battery (t + 1)
      = a.E_battery t
        + md.stepSize * (a.P_charge t * bessChargeEfficiency
            - a.P_discharge t * (1 / bessDischargeEfficiency))
  charge_limit : ∀ t < md.timeHorizon,
    a.P_charge t ≤ md.bessChargeCapacity * (1 - a.z_bess t)
  discharge_limit : ∀ t < md.timeHorizon,
    a.P_discharge t ≤ md.bessDischargeCapacity * a.z_bess t
  battery_cyclic_soc :
    0.5 * md.bessEnergyCapacity
      = a.E_battery (md.timeHorizon - 1)
        + md.stepSize * (a.P_charge (md.timeHorizon - 1) * bessChargeEfficiency
            - a.P_discharge (md.timeHorizon - 1) * (1 / bessDischargeEfficiency))
  h2_init : a.E_h2 0 = 0.5 * md.h2TankCapacity
  elec_sum : ∀ t < md.timeHorizon, a.P_elec t = a.P_elec_s1 t + a.P_elec_s2 t
  h2_prod : ∀ t < md.timeHorizon,
    a.H_produced t = a.P_elec_s1 t * md.slopeS1 + a.P_elec_s2 t * md.slopeS2
  elec_s1_before_s2 : ∀ t < md.timeHorizon,
    md.widthS1 * a.z_elec_s2 t ≤ a.P_elec_s1 t
  elec_s2_activation : ∀ t < md.timeHorizon,
    a.P_elec_s2 t ≤ md.widthS2 * a.z_elec_s2 t
  fc_limit : ∀ t < md.timeHorizon, a.P_fc t ≤ md.fuelCellCapacity * a.z_h2 t
  elec_limit : ∀ t < md.timeHorizon,
    a.P_elec t ≤ md.electrolyzerCapacity * (1 - a.z_h2 t)
  h2_dyn : ∀ t, t + 1 < md.timeHorizon →
    a.E_h2 (t + 1)
      = a.E_h2 t + a.H_produced t * md.stepSize
        - a.P_fc t * md.stepSize * md.fcConversionRate
  h2_cyclic :
    a.E_h2 0
      = a.E_h2 (md.timeHorizon - 1)
        + a.H_produced (md.timeHorizon - 1) * md.stepSize
        - a.P_fc (md.timeHorizon - 1) * md.stepSize * md.fcConversionRate

/-- The cost objective of the multi-load variant (`demand_optimization.py`
lines 288-302): the grid term prices the SIGNED grid power and the diesel fuel
term `fuel_price * F_diesel[t]` carries no `step_size` factor. -/
def costObjectiveM (md : ModelDataM) (a : AssignM) : ℚ :=
  ∑ t ∈ Finset.range md.timeHorizon,
    (md.stepSize * md.priceProfile t * a.P_grid t
      + md.fuelPrice * a.F_diesel t
      + md.stepSize * md.pvEnergyCost * a.P_pv_used t
      + md.stepSize * md.batteryOmCost * a.P_discharge t
      + md.stepSize * md.fuelCellOmCost * a.P_fc t
      + md.stepSize * md.electrolyzerOmCost * a.P_elec t
      + md.stepSize * md.curtailPenalty3 * a.P_curt3 t
      + md.stepSize * md.curtailPenalty4 * a.P_curt4 t
      + md.stepSize * md.curtailPenalty5 * a.P_curt5 t)

/-- The cost formula claim C1 asserts for the multi-load variant: every term
weighted by `step_size` and only the non-negative part of grid power priced. -/
def specCostFormulaM (md : ModelDataM) (a : AssignM) : ℚ :=
  ∑ t ∈ Finset.range md.timeHorizon,
    md.stepSize * (md.priceProfile t * max 0 (a.P_grid t)
      + md.fuelPrice * a.F_diesel t
      + md.pvEnergyCost * a.P_pv_used t
      + md.batteryOmCost * a.P_discharge t
      + md.fuelCellOmCost * a.P_fc t
      + md.electrolyzerOmCost * a.P_elec t
      + md.curtailPenalty3 * a.P_curt3 t
      + md.curtailPenalty4 * a.P_curt4 t
      + md.curtailPenalty5 * a.P_curt5 t)

/-- The multi-load cost objective as the amended claim states it: the grid
term `step_size × price[t] × Grid[t]` uses the signed grid power, the diesel
fuel term `fuel_price × Fuel[t]` carries no `step_size`, and all remaining
terms carry `step_size`. -/
def amendedCostM (md : ModelDataM) (a : AssignM) : ℚ :=
  ∑ t ∈ Finset.range md.timeHorizon,
    (md.stepSize * (md.priceProfile t * a.P_grid t)
      + md.fuelPrice * a.F_diesel t
      + md.stepSize * (md.pvEnergyCost * a.P_pv_used t
          + md.batteryOmCost * a.P_discharge t
          + md.fuelCellOmCost * a.P_fc t
          + md.electrolyzerOmCost * a.P_elec t
          + md.curtailPenalty3 * a.P_curt3 t
          + md.curtailPenalty4 * a.P_curt4 t
          + md.curtailPenalty5 * a.P_curt5 t))

/-- Replace only the grid connection capacity of a multi-load model. -/
def setGridM (md : ModelDataM) (g : ℚ) : ModelDataM :=
  { md with gridConnection := g }

/-! ## Result aggregation (grid cost reporting) -/

/-- Reported grid energy cost of the single-load variant (`optimization.py`
line 381): `sum(Grid_Power[t] * price[t] * step_size)` over the SIGNED grid
power. -/
def gridCostSingle (T : ℕ) (stepSize : ℚ) (gridPower priceProfile : ℕ → ℚ) : ℚ :=
  ∑ t ∈ Finset.range T, gridPower t * priceProfile t * stepSize

/-- Reported grid energy cost of the multi-load variant
(`demand_optimization.py` line 415): `sum(max(0.0, Grid_Power[t]) * price[t] *
step_size)` — imports only. -/
def gridCostMulti (T : ℕ) (stepSize : ℚ) (gridPower priceProfile : ℕ → ℚ) : ℚ :=
  ∑ t ∈ Finset.range T, max 0 (gridPower t) * priceProfile t * stepSize

/-- `total_cost_value = grid_cost + pv_cost + battery_om_total +
fuel_cost_total + fuel_cell_om_total + electrolyzer_om_total +
curtail_cost_total` (`optimization.py` line 385). -/
def totalCostValue (gridCost pvCost batteryOm fuelCost fcOm elecOm curtCost : ℚ) : ℚ :=
  gridCost + pvCost + batteryOm + fuelCost + fcOm + elecOm + curtCost

/-! ## Concrete instances used by witnesses and counterexamples -/

/-- Degenerate single-load instance: one day at 60-minute resolution, all
loads, prices, solar and capacities zero. -/
def zeroMdS : ModelDataS where
  numDays := 1
  resolutionMinutes := 60
  loadProfile := fun _ => 0
  priceProfile := fun _ => 0
  solarProfile := fun _ => 0
  gridConnection := 0
  solarConnection := 0
  batteryCapacityWh := 0
  dieselCapacity := 0
  fuelPrice := 0
  pvEnergyCost := 0
  loadCurtailCost := 0
  batteryOmCost := 0
  electrolyzerCapacity := 0
  fuelCellCapacity := 0
  h2TankCapacity := 0
  fuelCellEfficiencyPercent := 0
  fuelCellOmCost := 0
  electrolyzerOmCost := 0

/-- The all-zero assignment for the single-load model. -/
def zeroAssignS : AssignS where
  P_grid := fun _ => 0
  P_load_curt := fun _ => 0
  P_diesel := fun _ => 0
  z_diesel := fun _ => 0
  F_diesel := fun _ => 0
  P_charge := fun _ => 0
  P_discharge := fun _ => 0
  E_battery := fun _ => 0
  z_bess := fun _ => 0
  P_pv_used := fun _ => 0
  P_solar_curt := fun _ => 0
  P_elec := fun _ => 0
  P_fc := fun _ => 0
  E_h2 := fun _ => 0
  z_h2 := fun _ => 0
  P_elec_s1 := fun _ => 0
  P_elec_s2 := fun _ => 0
  z_elec_s2 := fun _ => 0
  H_produced := fun _ => 0
  P_grid_import := fun _ => 0

/-- Like `zeroAssignS` but with the diesel on/off flag raised and the fuel
variable at the intercept value 48 in every step — feasible for `zeroMdS`
although `diesel_capacity = 0`, because `F_diesel` has no upper bound. -/
def dieselAssignS : AssignS :=
  { zeroAssignS with z_diesel := fun _ => 1, F_diesel := fun _ => 48 }

/-- Degenerate multi-load instance: one day at 60-minute resolution,
everything zero (load lists empty, so every indexed demand is 0). -/
def zeroMdM : ModelDataM where
  numDays := 1
  resolutionMinutes := 60
  load1 := []
  load2 := []
  load3 := []
  load4 := []
  load5 := []
  priceProfile := fun _ => 0
  solarProfile := fun _ => 0
  gridConnection := 0
  solarConnection := 0
  batteryCapacityWh := 0
  dieselCapacity := 0
  fuelPrice := 0
  pvEnergyCost := 0
  batteryOmCost := 0
  electrolyzerCapacity := 0
  fuelCellCapacity := 0
  h2TankCapacity := 0
  fuelCellEfficiencyPercent := 0
  fuelCellOmCost := 0
  electrolyzerOmCost := 0
  curtailPenalty3 := 0
  curtailPenalty4 := 0
  curtailPenalty5 := 0

/-- The all-zero assignment for the multi-load model. -/
def zeroAssignM : AssignM where
  P_grid := fun _ => 0
  P_diesel := fun _ => 0
  z_diesel := fun _ => 0
  F_diesel := fun _ => 0
  P_charge := fun _ => 0
  P_discharge := fun _ => 0
  E_battery := fun _ => 0
  z_bess := fun _ => 0
  P_pv_used := fun _ => 0
  P_solar_curt := fun _ => 0
  P_elec := fun _ => 0
  P_fc := fun _ => 0
  E_h2 := fun _ => 0
  z_h2 := fun _ => 0
  P_elec_s1 := fun _ => 0
  P_elec_s2 := fun _ => 0
  z_elec_s2 := fun _ => 0
  H_produced := fun _ => 0
  P_served1 := fun _ => 0
  P_served2 := fun _ => 0
  P_served3 := fun _ => 0
  P_served4 := fun _ => 0
  P_served5 := fun _ => 0
  P_curt3 := fun _ => 0
  P_curt4 := fun _ => 0
  P_curt5 := fun _ => 0
  z_curt := fun _ => 0

/-- Multi-load instance with a 10 kW grid connection, a 10 kW solar plant at
full availability, unit grid price and zero loads: exporting all solar is
feasible. -/
def cexMdM : ModelDataM :=
  { zeroMdM with
    priceProfile := fun _ => 1
    solarProfile := fun _ => 1
    gridConnection := 10
    solarConnection := 10 }

/-- Feasible assignment for `cexMdM` that exports all 10 kW of solar to the
grid in every step. -/
def cexAssignM : AssignM :=
  { zeroAssignM with
    P_grid := fun _ => -10
    P_pv_used := fun _ => 10 }

/-- Base load series of 25 points (accepted: at least 24) for the C5
counterexample. -/
def c5Load : List ℚ := List.replicate 25 1

/-- Base load series of exactly 24 points for the C6 counterexample. -/
def c6Load : List ℚ := List.replicate 24 1

/-- Price series of exactly 48 points (= T for one day at 30-minute
resolution) for the C6 counterexample. -/
def c6Price : List ℚ := 0 :: 95 :: List.replicate 46 0

/-! ## Helper lemmas -/

/-- Length of an upsampled profile: `num_days` copies of
`len * steps_per_hour` interpolated points. -/
theorem upsample_profile_length (p : List ℚ) (sph d : ℕ) :
    (upsample_profile p sph d).length = d * (p.length * sph) := by
  unfold upsample_profile
  rw [List.length_flatten, List.map_replicate, List.sum_replicate, smul_eq_mul,
    List.length_map, List.length_range]

/-- Splitting a rational into positive and negative parts. -/
theorem max_zero_sub_max_zero_neg (a : ℚ) : max 0 a - max 0 (-a) = a := by
  rcases le_total 0 a with h | h
  · rw [max_eq_right h, max_eq_left (by linarith)]; ring
  · rw [max_eq_left h, max_eq_right (by linarith)]; ring

/-- The step size derived from a resolution in minutes is non-negative. -/
theorem stepSizeS_nonneg (md : ModelDataS) : 0 ≤ md.stepSize := by
  unfold ModelDataS.stepSize
  positivity

/-- The all-zero assignment is feasible for the all-zero single-load model. -/
theorem zeroFeasS : FeasibleS zeroMdS zeroAssignS := by
  constructor <;>
    first
      | (intro t ht
         norm_num [zeroMdS, zeroAssignS, ModelDataS.stepSize, ModelDataS.timeHorizon,
           ModelDataS.stepsPerHour, ModelDataS.batteryStorageEnergy, ModelDataS.batteryPower,
           ModelDataS.bessChargeCapacity, ModelDataS.bessDischargeCapacity,
           ModelDataS.bessEnergyCapacity, ModelDataS.dieselMinPower, ModelDataS.dieselMaxPower,
           ModelDataS.fuelCellEfficiencyKwhPerKg, ModelDataS.fcConversionRate,
           ModelDataS.PBreak1, ModelDataS.PBreak2, ModelDataS.H2AtBreak1, ModelDataS.H2AtBreak2,
           ModelDataS.slopeS1, ModelDataS.slopeS2, ModelDataS.widthS1, ModelDataS.widthS2,
           bessMinSoc, bessMaxSoc, bessChargeEfficiency, bessDischargeEfficiency,
           fuelSlope, fuelIntercept, h2MinSoc, h2MaxSoc, H2LHV])
      | norm_num [zeroMdS, zeroAssignS, ModelDataS.stepSize, ModelDataS.timeHorizon,
          ModelDataS.stepsPerHour, ModelDataS.batteryStorageEnergy, ModelDataS.batteryPower,
          ModelDataS.bessChargeCapacity, ModelDataS.bessDischargeCapacity,
          ModelDataS.bessEnergyCapacity, ModelDataS.dieselMinPower, ModelDataS.dieselMaxPower,
          ModelDataS.fuelCellEfficiencyKwhPerKg, ModelDataS.fcConversionRate,
          ModelDataS.PBreak1, ModelDataS.PBreak2, ModelDataS.H2AtBreak1, ModelDataS.H2AtBreak2,
          ModelDataS.slopeS1, ModelDataS.slopeS2, ModelDataS.widthS1, ModelDataS.widthS2,
          bessMinSoc, bessMaxSoc, bessChargeEfficiency, bessDischargeEfficiency,
          fuelSlope, fuelIntercept, h2MinSoc, h2MaxSoc, H2LHV]

/-- The raised-diesel-flag assignment is feasible for the all-zero model even
though `diesel_capacity = 0`: only `F_diesel` is pushed up (to the 48 l
intercept), since the fuel variable has no upper bound. -/
theorem dieselFeasS : FeasibleS zeroMdS dieselAssignS := by
  constructor <;>
    first
      | (intro t ht
         norm_num [zeroMdS, zeroAssignS, dieselAssignS, ModelDataS.stepSize,
           ModelDataS.timeHorizon, ModelDataS.stepsPerHour, ModelDataS.batteryStorageEnergy,
           ModelDataS.batteryPower, ModelDataS.bessChargeCapacity,
           ModelDataS.bessDischargeCapacity, ModelDataS.bessEnergyCapacity,
           ModelDataS.dieselMinPower, ModelDataS.dieselMaxPower,
           ModelDataS.fuelCellEfficiencyKwhPerKg, ModelDataS.fcConversionRate,
           ModelDataS.PBreak1, ModelDataS.PBreak2, ModelDataS.H2AtBreak1, ModelDataS.H2AtBreak2,
           ModelDataS.slopeS1, ModelDataS.slopeS2, ModelDataS.widthS1, ModelDataS.widthS2,
           bessMinSoc, bessMaxSoc, bessChargeEfficiency, bessDischargeEfficiency,
           fuelSlope, fuelIntercept, h2MinSoc, h2MaxSoc, H2LHV])
      | norm_num [zeroMdS, zeroAssignS, dieselAssignS, ModelDataS.stepSize,
          ModelDataS.timeHorizon, ModelDataS.stepsPerHour, ModelDataS.batteryStorageEnergy,
          ModelDataS.batteryPower, ModelDataS.bessChargeCapacity,
          ModelDataS.bessDischargeCapacity, ModelDataS.bessEnergyCapacity,
          ModelDataS.dieselMinPower, ModelDataS.dieselMaxPower,
          ModelDataS.fuelCellEfficiencyKwhPerKg, ModelDataS.fcConversionRate,
          ModelDataS.PBreak1, ModelDataS.PBreak2, ModelDataS.H2AtBreak1, ModelDataS.H2AtBreak2,
          ModelDataS.slopeS1, ModelDataS.slopeS2, ModelDataS.widthS1, ModelDataS.widthS2,
          bessMinSoc, bessMaxSoc, bessChargeEfficiency, bessDischargeEfficiency,
          fuelSlope, fuelIntercept, h2MinSoc, h2MaxSoc, H2LHV]

/-- The all-zero assignment is feasible for the all-zero multi-load model. -/
theorem zeroFeasM : FeasibleM zeroMdM zeroAssignM := by
  constructor <;>
    first
      | (intro t ht
         norm_num [zeroMdM, zeroAssignM, loadAt, pyMax, ModelDataM.MCurt,
           ModelDataM.stepSize, ModelDataM.timeHorizon, ModelDataM.stepsPerHour,
           ModelDataM.batteryStorageEnergy, ModelDataM.batteryPower,
           ModelDataM.bessChargeCapacity, ModelDataM.bessDischargeCapacity,
           ModelDataM.bessEnergyCapacity, ModelDataM.dieselMinPower, ModelDataM.dieselMaxPower,
           ModelDataM.fuelCellEfficiencyKwhPerKg, ModelDataM.fcConversionRate,
           ModelDataM.PBreak1, ModelDataM.PBreak2, ModelDataM.H2AtBreak1, ModelDataM.H2AtBreak2,
           ModelDataM.slopeS1, ModelDataM.slopeS2, ModelDataM.widthS1, ModelDataM.widthS2,
           bessMinSoc, bessMaxSoc, bessChargeEfficiency, bessDischargeEfficiency,
           fuelSlope, fuelIntercept, h2MinSoc, h2MaxSoc, H2LHV])
      | norm_num [zeroMdM, zeroAssignM, loadAt, pyMax, ModelDataM.MCurt,
          ModelDataM.stepSize, ModelDataM.timeHorizon, ModelDataM.stepsPerHour,
          ModelDataM.batteryStorageEnergy, ModelDataM.batteryPower,
          ModelDataM.bessChargeCapacity, ModelDataM.bessDischargeCapacity,
          ModelDataM.bessEnergyCapacity, ModelDataM.dieselMinPower, ModelDataM.dieselMaxPower,
          ModelDataM.fuelCellEfficiencyKwhPerKg, ModelDataM.fcConversionRate,
          ModelDataM.PBreak1, ModelDataM.PBreak2, ModelDataM.H2AtBreak1, ModelDataM.H2AtBreak2,
          ModelDataM.slopeS1, ModelDataM.slopeS2, ModelDataM.widthS1, ModelDataM.widthS2,
          bessMinSoc, bessMaxSoc, bessChargeEfficiency, bessDischargeEfficiency,
          fuelSlope, fuelIntercept, h2MinSoc, h2MaxSoc, H2LHV]

/-- The export-everything assignment is feasible for the solar-plus-grid
multi-load instance. -/
theorem cexFeasM : FeasibleM cexMdM cexAssignM := by
  constructor <;>
    first
      | (intro t ht
         norm_num [cexMdM, cexAssignM, zeroMdM, zeroAssignM, loadAt, pyMax, ModelDataM.MCurt,
           ModelDataM.stepSize, ModelDataM.timeHorizon, ModelDataM.stepsPerHour,
           ModelDataM.batteryStorageEnergy, ModelDataM.batteryPower,
           ModelDataM.bessChargeCapacity, ModelDataM.bessDischargeCapacity,
           ModelDataM.bessEnergyCapacity, ModelDataM.dieselMinPower, ModelDataM.dieselMaxPower,
           ModelDataM.fuelCellEfficiencyKwhPerKg, ModelDataM.fcConversionRate,
           ModelDataM.PBreak1, ModelDataM.PBreak2, ModelDataM.H2AtBreak1, ModelDataM.H2AtBreak2,
           ModelDataM.slopeS1, ModelDataM.slopeS2, ModelDataM.widthS1, ModelDataM.widthS2,
           bessMinSoc, bessMaxSoc, bessChargeEfficiency, bessDischargeEfficiency,
           fuelSlope, fuelIntercept, h2MinSoc, h2MaxSoc, H2LHV])
      | norm_num [cexMdM, cexAssignM, zeroMdM, zeroAssignM, loadAt, pyMax, ModelDataM.MCurt,
          ModelDataM.stepSize, ModelDataM.timeHorizon, ModelDataM.stepsPerHour,
          ModelDataM.batteryStorageEnergy, ModelDataM.batteryPower,
          ModelDataM.bessChargeCapacity, ModelDataM.bessDischargeCapacity,
          ModelDataM.bessEnergyCapacity, ModelDataM.dieselMinPower, ModelDataM.dieselMaxPower,
          ModelDataM.fuelCellEfficiencyKwhPerKg, ModelDataM.fcConversionRate,
          ModelDataM.PBreak1, ModelDataM.PBreak2, ModelDataM.H2AtBreak1, ModelDataM.H2AtBreak2,
          ModelDataM.slopeS1, ModelDataM.slopeS2, ModelDataM.widthS1, ModelDataM.widthS2,
          bessMinSoc, bessMaxSoc, bessChargeEfficiency, bessDischargeEfficiency,
          fuelSlope, fuelIntercept, h2MinSoc, h2MaxSoc, H2LHV]

/-! ## Claim theorems -/

/-- C2: in both variants, any solver status other than optimal makes the run
fail with an error carrying the solver's status string, and no summary (hence
no plot or chart data, which are only built from a summary run) is produced;
an `ok` summary is returned exactly when the status is optimal. -/
theorem solver_status_gate {α β : Type} (objective_type : String) (status : Int)
    (mk : Unit → α) (mkm : Unit → β) :
    (status ≠ lpStatusOptimal →
      runResultS objective_type status mk
          = Except.error ("Optimization failed with status: " ++ lpStatusString status
              ++ co2Suffix objective_type)
        ∧ runResultM status mkm
          = Except.error ("Optimization failed with status: " ++ lpStatusString status)
        ∧ (∀ x, runResultS objective_type status mk ≠ Except.ok x)
        ∧ ∀ y, runResultM status mkm ≠ Except.ok y)
    ∧ (status = lpStatusOptimal →
      runResultS objective_type status mk = Except.ok (mk ())
        ∧ runResultM status mkm = Except.ok (mkm ())) := by
  constructor
  · intro h
    refine ⟨?_, ?_, ?_, ?_⟩ <;> simp [runResultS, runResultM, h]
  · intro h
    simp [runResultS, runResultM, h]

/-- Witness for C2 at the concrete statuses `Infeasible` and `Optimal`. -/
theorem solver_status_gate_witness :
    runResultS "cost" (-1) (fun _ => (0 : ℕ))
        = Except.error "Optimization failed with status: Infeasible"
      ∧ runResultM 1 (fun _ => (0 : ℕ)) = Except.ok 0 := by
  constructor
  · have h := (solver_status_gate "cost" (-1) (fun _ => (0 : ℕ)) (fun _ => (0 : ℕ))).1
      (by decide)
    have e : ("Optimization failed with status: " ++ lpStatusString (-1)
          ++ co2Suffix "cost") = "Optimization failed with status: Infeasible" := by decide
    rw [h.1, e]
  · exact ((solver_status_gate "cost" 1 (fun _ => (0 : ℕ)) (fun _ => (0 : ℕ))).2 rfl).2

/-- C3: in every feasible assignment of the multi-load model, strictly
positive total curtailment at t forces `z_curt[t] = 1` and non-negative grid
power (no export), and the big-M bounding the curtailment indicator is the sum
of the three curtailable loads' peak demands. -/
theorem export_lockout (md : ModelDataM) (a : AssignM) (h : FeasibleM md a) :
    ∀ t < md.timeHorizon,
      (0 < a.P_curt3 t + a.P_curt4 t + a.P_curt5 t →
        a.z_curt t = 1 ∧ 0 ≤ a.P_grid t)
      ∧ a.P_curt3 t + a.P_curt4 t + a.P_curt5 t
          ≤ (pyMax md.load3 + pyMax md.load4 + pyMax md.load5) * a.z_curt t := by
  intro t ht
  have hind := h.curt_indicator t ht
  have hexp := h.no_export_when_curt t ht
  have hbin := h.z_curt_bin t ht
  constructor
  · intro hpos
    rcases hbin with h0 | h1
    · rw [h0, mul_zero] at hind
      exact absurd (lt_of_lt_of_le hpos hind) (lt_irrefl 0)
    · refine ⟨h1, ?_⟩
      rw [h1] at hexp
      simpa using hexp
  · simpa [ModelDataM.MCurt] using hind

/-- Witness for C3 at the zero multi-load instance and timestep 0. -/
theorem export_lockout_witness :
    (0 < zeroAssignM.P_curt3 0 + zeroAssignM.P_curt4 0 + zeroAssignM.P_curt5 0 →
      zeroAssignM.z_curt 0 = 1 ∧ 0 ≤ zeroAssignM.P_grid 0)
    ∧ zeroAssignM.P_curt3 0 + zeroAssignM.P_curt4 0 + zeroAssignM.P_curt5 0
        ≤ (pyMax zeroMdM.load3 + pyMax zeroMdM.load4 + pyMax zeroMdM.load5)
          * zeroAssignM.z_curt 0 :=
  export_lockout zeroMdM zeroAssignM zeroFeasM 0 (by decide)

/-- C4: in every feasible assignment of both variants both stores close the
cycle: the battery starts at half its energy capacity and `E[0]` equals
`E[T-1]` plus the step-scaled net charge flow at T-1, and the hydrogen store
starts at half the tank capacity and `E_h2[0]` equals `E_h2[T-1]` plus
step-scaled production minus step-scaled fuel-cell consumption at T-1. -/
theorem storage_cyclic_closure (mdS : ModelDataS) (aS : AssignS)
    (mdM : ModelDataM) (aM : AssignM)
    (hS : FeasibleS mdS aS) (hM : FeasibleM mdM aM) :
    (aS.E_battery 0 = 0.5 * mdS.bessEnergyCapacity
      ∧ aS.E_battery 0
          = aS.E_battery (mdS.timeHorizon - 1)
            + mdS.stepSize * (aS.P_charge (mdS.timeHorizon - 1) * bessChargeEfficiency
                - aS.P_discharge (mdS.timeHorizon - 1) * (1 / bessDischargeEfficiency))
      ∧ aS.E_h2 0 = 0.5 * mdS.h2TankCapacity
      ∧ aS.E_h2 0
          = aS.E_h2 (mdS.timeHorizon - 1)
            + aS.H_produced (mdS.timeHorizon - 1) * mdS.stepSize
            - aS.P_fc (mdS.timeHorizon - 1) * mdS.stepSize * mdS.fcConversionRate)
    ∧ (aM.E_battery 0 = 0.5 * mdM.bessEnergyCapacity
      ∧ aM.E_battery 0
          = aM.E_battery (mdM.timeHorizon - 1)
            + mdM.stepSize * (aM.P_charge (mdM.timeHorizon - 1) * bessChargeEfficiency
                - aM.P_discharge (mdM.timeHorizon - 1) * (1 / bessDischargeEfficiency))
      ∧ aM.E_h2 0 = 0.5 * mdM.h2TankCapacity
      ∧ aM.E_h2 0
          = aM.E_h2 (mdM.timeHorizon - 1)
            + aM.H_produced (mdM.timeHorizon - 1) * mdM.stepSize
            - aM.P_fc (mdM.timeHorizon - 1) * mdM.stepSize * mdM.fcConversionRate) := by
  refine ⟨⟨hS.battery_init, ?_, hS.h2_init, hS.h2_cyclic⟩,
    hM.battery_init, ?_, hM.h2_init, hM.h2_cyclic⟩
  · rw [hS.battery_init]
    exact hS.battery_cyclic_soc
  · rw [hM.battery_init]
    exact hM.battery_cyclic_soc

/-- Witness for C4 at the zero instances of both variants. -/
theorem storage_cyclic_closure_witness :
    zeroAssignS.E_battery 0 = 0.5 * zeroMdS.bessEnergyCapacity
    ∧ zeroAssignM.E_h2 0 = 0.5 * zeroMdM.h2TankCapacity :=
  ⟨(storage_cyclic_closure zeroMdS zeroAssignS zeroMdM zeroAssignM zeroFeasS zeroFeasM).1.1,
   (storage_cyclic_closure zeroMdS zeroAssignS zeroMdM zeroAssignM zeroFeasS zeroFeasM).2.2.2.1⟩

/-- C1 (amended): the single-load cost objective is exactly the spec formula
with `GridImport` the dedicated import variable; in any feasible assignment
with non-negative prices it never falls below the formula pricing only the
non-negative part of grid power, and it coincides with that formula whenever
the import variable sits at its lower bound `max(0, Grid[t])` — so export
contributes nothing there; the multi-load cost objective instead prices the
SIGNED grid power and omits the `step_size` weight on the diesel fuel term,
with every other term carrying `step_size`. -/
theorem cost_objective_amended (mdS : ModelDataS) (aS : AssignS)
    (mdM : ModelDataM) (aM : AssignM)
    (hfeas : FeasibleS mdS aS)
    (hprice : ∀ t < mdS.timeHorizon, 0 ≤ mdS.priceProfile t) :
    costObjectiveS mdS aS = specCostFormulaS mdS aS
    ∧ specCostPosS mdS aS ≤ costObjectiveS mdS aS
    ∧ ((∀ t < mdS.timeHorizon, aS.P_grid_import t = max 0 (aS.P_grid t)) →
        costObjectiveS mdS aS = specCostPosS mdS aS)
    ∧ costObjectiveM mdM aM = amendedCostM mdM aM := by
  refine ⟨?_, ?_, ?_, ?_⟩
  · unfold costObjectiveS specCostFormulaS
    exact Finset.sum_congr rfl fun t _ => by ring
  · unfold specCostPosS costObjectiveS
    refine Finset.sum_le_sum fun t ht => ?_
    have ht' : t < mdS.timeHorizon := Finset.mem_range.mp ht
    have h0 : 0 ≤ aS.P_grid_import t := hfeas.grid_import_lb t ht'
    have hg : aS.P_grid t ≤ aS.P_grid_import t := hfeas.grid_import_ge_pgrid t ht'
    have hmax : max 0 (aS.P_grid t) ≤ aS.P_grid_import t := max_le h0 hg
    have hp : 0 ≤ mdS.priceProfile t := hprice t ht'
    have hstep : 0 ≤ mdS.stepSize := stepSizeS_nonneg mdS
    have key : mdS.stepSize * (mdS.priceProfile t * max 0 (aS.P_grid t))
        ≤ mdS.stepSize * (mdS.priceProfile t * aS.P_grid_import t) :=
      mul_le_mul_of_nonneg_left (mul_le_mul_of_nonneg_left hmax hp) hstep
    nlinarith [key]
  · intro himp
    unfold costObjectiveS specCostPosS
    refine Finset.sum_congr rfl fun t ht => ?_
    rw [himp t (Finset.mem_range.mp ht)]
    ring
  · unfold costObjectiveM amendedCostM
    exact Finset.sum_congr rfl fun t _ => by ring

/-- Witness for C1 at the zero single-load instance (the multi-load identity
conjunct is closed there as well). -/
theorem cost_objective_amended_witness :
    costObjectiveS zeroMdS zeroAssignS = specCostFormulaS zeroMdS zeroAssignS
    ∧ costObjectiveM zeroMdM zeroAssignM = amendedCostM zeroMdM zeroAssignM :=
  ⟨(cost_objective_amended zeroMdS zeroAssignS zeroMdM zeroAssignM zeroFeasS
      (fun _ _ => le_refl 0)).1,
   (cost_objective_amended zeroMdS zeroAssignS zeroMdM zeroAssignM zeroFeasS
      (fun _ _ => le_refl 0)).2.2.2⟩

/-- C1 counterexample: a concrete FEASIBLE assignment of a concrete multi-load
model (a 10 kW solar plant exporting everything at unit price over one day at
60-minute resolution) on which the objective the solver minimises is -240
while the formula claimed by C1 evaluates to 0 — export at a positive price
reduces the multi-load objective, so the claimed formula is not the objective. -/
theorem cost_objective_multi_counterexample :
    FeasibleM cexMdM cexAssignM
    ∧ costObjectiveM cexMdM cexAssignM = -240
    ∧ specCostFormulaM cexMdM cexAssignM = 0
    ∧ costObjectiveM cexMdM cexAssignM ≠ specCostFormulaM cexMdM cexAssignM := by
  have hobj : costObjectiveM cexMdM cexAssignM = -240 := by
    unfold costObjectiveM
    norm_num [cexMdM, cexAssignM, zeroMdM, zeroAssignM, ModelDataM.stepSize,
      ModelDataM.timeHorizon, ModelDataM.stepsPerHour, Finset.sum_const,
      Finset.card_range, nsmul_eq_mul]
  have hspec : specCostFormulaM cexMdM cexAssignM = 0 := by
    have hm : max (0 : ℚ) (-10) = 0 := by
      rw [max_eq_left (by norm_num)]
    unfold specCostFormulaM
    norm_num [cexMdM, cexAssignM, zeroMdM, zeroAssignM, ModelDataM.stepSize,
      ModelDataM.timeHorizon, ModelDataM.stepsPerHour, hm, Finset.sum_const,
      Finset.card_range, nsmul_eq_mul]
  refine ⟨cexFeasM, hobj, hspec, ?_⟩
  rw [hobj, hspec]
  norm_num

/-- C8 (amended): with a zero-capacity subsystem, every feasible assignment
drives that subsystem's POWER variables to zero purely through the collapsed
bounds and capacity-scaled constraints — diesel power, PV used, electrolyzer
power and hydrogen production, and fuel-cell power — but the diesel FUEL
variable is only bounded below, so it need not vanish (see the
counterexample). -/
theorem zero_capacity_amended (md : ModelDataS) (a : AssignS) (h : FeasibleS md a) :
    ∀ t < md.timeHorizon,
      (md.dieselCapacity = 0 → a.P_diesel t = 0)
      ∧ (md.solarConnection = 0 → a.P_pv_used t = 0)
      ∧ (md.electrolyzerCapacity = 0 → a.P_elec t = 0 ∧ a.H_produced t = 0)
      ∧ (md.fuelCellCapacity = 0 → a.P_fc t = 0) := by
  intro t ht
  refine ⟨fun h0 => ?_, fun h0 => ?_, fun h0 => ?_, fun h0 => ?_⟩
  · have hb := h.diesel_var_bounds t ht
    have hmax : md.dieselMaxPower = 0 := by
      simp [ModelDataS.dieselMaxPower, h0]
    rw [hmax] at hb
    linarith [hb.1, hb.2]
  · have hb := h.pv_balance t ht
    rw [h0, mul_zero] at hb
    have h1 := h.pv_used_lb t ht
    have h2 := h.solar_curt_lb t ht
    linarith
  · have hb := h.elec_var_bounds t ht
    rw [h0] at hb
    have helec : a.P_elec t = 0 := by linarith [hb.1, hb.2]
    have hw1 : md.widthS1 = 0 := by
      simp [ModelDataS.widthS1, ModelDataS.PBreak1, h0]
    have hw2 : md.widthS2 = 0 := by
      simp [ModelDataS.widthS2, ModelDataS.PBreak2, ModelDataS.PBreak1, h0]
    have hs1 := h.s1_var_bounds t ht
    have hs2 := h.s2_var_bounds t ht
    rw [hw1] at hs1
    rw [hw2] at hs2
    have hs1e : a.P_elec_s1 t = 0 := by linarith [hs1.1, hs1.2]
    have hs2e : a.P_elec_s2 t = 0 := by linarith [hs2.1, hs2.2]
    refine ⟨helec, ?_⟩
    rw [h.h2_prod t ht, hs1e, hs2e]
    ring
  · have hb := h.fc_var_bounds t ht
    rw [h0] at hb
    linarith [hb.1, hb.2]

/-- Witness for C8 at the zero single-load instance and timestep 0. -/
theorem zero_capacity_amended_witness :
    zeroAssignS.P_diesel 0 = 0 ∧ zeroAssignS.P_fc 0 = 0 :=
  ⟨(zero_capacity_amended zeroMdS zeroAssignS zeroFeasS 0 (by decide)).1 rfl,
   (zero_capacity_amended zeroMdS zeroAssignS zeroFeasS 0 (by decide)).2.2.2 rfl⟩

/-- C8 counterexample: the claim that ALL of a zero-capacity subsystem's
variables vanish in every feasible assignment is false — with
`diesel_capacity = 0` an assignment keeping `z_diesel = 1` and
`F_diesel = 48` (the fuel intercept) in every step is still feasible, since
the fuel variable has no upper bound. -/
theorem zero_capacity_counterexample :
    ¬ ∀ (md : ModelDataS) (a : AssignS), FeasibleS md a → md.dieselCapacity = 0 →
        ∀ t < md.timeHorizon, a.P_diesel t = 0 ∧ a.F_diesel t = 0 := by
  intro hclaim
  have h := hclaim zeroMdS dieselAssignS dieselFeasS rfl 0 (by decide)
  have h48 : dieselAssignS.F_diesel 0 = 48 := rfl
  rw [h.2] at h48
  norm_num at h48

/-- C9: with everything else fixed, enlarging only the grid connection bound
enlarges the feasible set of both variants (every feasible assignment stays
feasible, including against the multi-load export-lockout constraint), hence
any optimum of the relaxed single-load model is at most any optimum of the
tighter one; and the raw-input clamp `max(100, ·)` is monotone, so increasing
the requested `grid_connection` never increases the optimal cost. -/
theorem grid_capacity_monotone (mdS : ModelDataS) (mdM : ModelDataM) (g g' : ℚ)
    (hg : g ≤ g') :
    (∀ a, FeasibleS (setGridS mdS g) a → FeasibleS (setGridS mdS g') a)
    ∧ (∀ a, FeasibleM (setGridM mdM g) a → FeasibleM (setGridM mdM g') a)
    ∧ (∀ a a', IsOptimalS (setGridS mdS g) a → IsOptimalS (setGridS mdS g') a' →
        costObjectiveS (setGridS mdS g') a' ≤ costObjectiveS (setGridS mdS g) a)
    ∧ ∀ raw raw' : ℚ, raw ≤ raw' →
        normGridConnection raw ≤ normGridConnection raw' := by
  have hcontS : ∀ a, FeasibleS (setGridS mdS g) a → FeasibleS (setGridS mdS g') a := by
    intro a h
    exact {
      grid_bounds := fun t ht =>
        ⟨le_trans (neg_le_neg hg) (h.grid_bounds t ht).1,
         le_trans (h.grid_bounds t ht).2 hg⟩
      load_curt_lb := h.load_curt_lb
      diesel_var_bounds := h.diesel_var_bounds
      z_diesel_bin := h.z_diesel_bin
      fuel_lb := h.fuel_lb
      charge_var_bounds := h.charge_var_bounds
      discharge_var_bounds := h.discharge_var_bounds
      battery_level_bounds := h.battery_level_bounds
      z_bess_bin := h.z_bess_bin
      pv_used_lb := h.pv_used_lb
      solar_curt_lb := h.solar_curt_lb
      elec_var_bounds := h.elec_var_bounds
      fc_var_bounds := h.fc_var_bounds
      h2_level_bounds := h.h2_level_bounds
      z_h2_bin := h.z_h2_bin
      s1_var_bounds := h.s1_var_bounds
      s2_var_bounds := h.s2_var_bounds
      z_elec_s2_bin := h.z_elec_s2_bin
      h_produced_lb := h.h_produced_lb
      grid_import_lb := h.grid_import_lb
      power_balance := h.power_balance
      load_curt_max := h.load_curt_max
      pv_balance := h.pv_balance
      diesel_min := h.diesel_min
      diesel_max := h.diesel_max
      fuel_cons := h.fuel_cons
      battery_init := h.battery_init
      battery_dynamics := h.battery_dynamics
      charge_limit := h.charge_limit
      discharge_limit := h.discharge_limit
      battery_cyclic_soc := h.battery_cyclic_soc
      h2_init := h.h2_init
      elec_sum := h.elec_sum
      h2_prod := h.h2_prod
      elec_s1_before_s2 := h.elec_s1_before_s2
      elec_s2_activation := h.elec_s2_activation
      fc_limit := h.fc_limit
      elec_limit := h.elec_limit
      h2_dyn := h.h2_dyn
      h2_cyclic := h.h2_cyclic
      grid_import_ge_pgrid := h.grid_import_ge_pgrid
      grid_import_ge_0 := h.grid_import_ge_0 }
  have hcontM : ∀ a, FeasibleM (setGridM mdM g) a → FeasibleM (setGridM mdM g') a := by
    intro a h
    exact {
      grid_bounds := fun t ht =>
        ⟨le_trans (neg_le_neg hg) (h.grid_bounds t ht).1,
         le_trans (h.grid_bounds t ht).2 hg⟩
      no_export_when_curt := fun t ht => by
        have hexp : -g * (1 - a.z_curt t) ≤ a.P_grid t := h.no_export_when_curt t ht
        have h1z : 0 ≤ 1 - a.z_curt t := by
          rcases h.z_curt_bin t ht with h0 | h1
          · rw [h0]; norm_num
          · rw [h1]; norm_num
        show -g' * (1 - a.z_curt t) ≤ a.P_grid t
        calc -g' * (1 - a.z_curt t)
            ≤ -g * (1 - a.z_curt t) := mul_le_mul_of_nonneg_right (neg_le_neg hg) h1z
          _ ≤ a.P_grid t := hexp
      diesel_var_bounds := h.diesel_var_bounds
      z_diesel_bin := h.z_diesel_bin
      fuel_lb := h.fuel_lb
      charge_var_bounds := h.charge_var_bounds
      discharge_var_bounds := h.discharge_var_bounds
      battery_level_bounds := h.battery_level_bounds
      z_bess_bin := h.z_bess_bin
      pv_used_lb := h.pv_used_lb
      solar_curt_lb := h.solar_curt_lb
      elec_var_bounds := h.elec_var_bounds
      fc_var_bounds := h.fc_var_bounds
      h2_level_bounds := h.h2_level_bounds
      z_h2_bin := h.z_h2_bin
      s1_var_bounds := h.s1_var_bounds
      s2_var_bounds := h.s2_var_bounds
      z_elec_s2_bin := h.z_elec_s2_bin
      h_produced_lb := h.h_produced_lb
      served_lb := h.served_lb
      curt_lb := h.curt_lb
      z_curt_bin := h.z_curt_bin
      crit_load_served := h.crit_load_served
      dr_load_balance := h.dr_load_balance
      curt_indicator := h.curt_indicator
      power_balance := h.power_balance
      pv_balance := h.pv_balance
      diesel_min := h.diesel_min
      diesel_max := h.diesel_max
      fuel_cons := h.fuel_cons
      battery_init := h.battery_init
      battery_dynamics := h.battery_dynamics
      charge_limit := h.charge_limit
      discharge_limit := h.discharge_limit
      battery_cyclic_soc := h.battery_cyclic_soc
      h2_init := h.h2_init
      elec_sum := h.elec_sum
      h2_prod := h.h2_prod
      elec_s1_before_s2 := h.elec_s1_before_s2
      elec_s2_activation := h.elec_s2_activation
      fc_limit := h.fc_limit
      elec_limit := h.elec_limit
      h2_dyn := h.h2_dyn
      h2_cyclic := h.h2_cyclic }
  refine ⟨hcontS, hcontM, ?_, ?_⟩
  · intro a a' ha ha'
    have hfeas : FeasibleS (setGridS mdS g') a := hcontS a ha.1
    exact ha'.2 a hfeas
  · intro raw raw' hr
    exact max_le_max le_rfl hr

/-- Witness for C9: relaxing the zero instance's grid bound from 0 to 1
preserves feasibility of the zero assignment. -/
theorem grid_capacity_monotone_witness :
    FeasibleS (setGridS zeroMdS 1) zeroAssignS :=
  (grid_capacity_monotone zeroMdS zeroMdM 0 1 (by norm_num)).1 zeroAssignS zeroFeasS

/-- C10: the single-load summary's reported grid cost sums SIGNED grid power
times price times step, so any timestep exporting at a positive price makes it
strictly smaller than the import-only grid cost that the multi-load variant
reports; the gap is exactly the priced export energy; and the strict reduction
propagates to the reported total cost (hence to cost per kWh). -/
theorem reported_grid_cost_signed (T : ℕ) (step : ℚ) (gp price : ℕ → ℚ)
    (hstep : 0 < step) (hprice : ∀ t < T, 0 ≤ price t)
    (t0 : ℕ) (ht0 : t0 < T) (hexp : gp t0 < 0) (hp0 : 0 < price t0) :
    gridCostSingle T step gp price < gridCostMulti T step gp price
    ∧ gridCostSingle T step gp price
        = gridCostMulti T step gp price
          - ∑ t ∈ Finset.range T, max 0 (-gp t) * price t * step
    ∧ ∀ pv bo fu fc el cu,
        totalCostValue (gridCostSingle T step gp price) pv bo fu fc el cu
          < totalCostValue (gridCostMulti T step gp price) pv bo fu fc el cu := by
  have hlt : gridCostSingle T step gp price < gridCostMulti T step gp price := by
    unfold gridCostSingle gridCostMulti
    refine Finset.sum_lt_sum (fun i hi => ?_) ⟨t0, Finset.mem_range.mpr ht0, ?_⟩
    · have hp : 0 ≤ price i := hprice i (Finset.mem_range.mp hi)
      have hle : gp i ≤ max 0 (gp i) := le_max_right 0 (gp i)
      exact mul_le_mul_of_nonneg_right (mul_le_mul_of_nonneg_right hle hp) hstep.le
    · have hlt0 : gp t0 < max 0 (gp t0) := lt_of_lt_of_le hexp (le_max_left 0 (gp t0))
      exact mul_lt_mul_of_pos_right (mul_lt_mul_of_pos_right hlt0 hp0) hstep
  refine ⟨hlt, ?_, ?_⟩
  · unfold gridCostSingle gridCostMulti
    rw [← Finset.sum_sub_distrib]
    refine Finset.sum_congr rfl fun t _ => ?_
    calc gp t * price t * step
        = (max 0 (gp t) - max 0 (-gp t)) * price t * step := by
          rw [max_zero_sub_max_zero_neg]
      _ = max 0 (gp t) * price t * step - max 0 (-gp t) * price t * step := by ring
  · intro pv bo fu fc el cu
    unfold totalCostValue
    linarith [hlt]

/-- Witness for C10: one timestep exporting 2 kW at price 3 with unit step. -/
theorem reported_grid_cost_signed_witness :
    gridCostSingle 1 1 (fun _ => -2) (fun _ => 3)
      < gridCostMulti 1 1 (fun _ => -2) (fun _ => 3) :=
  (reported_grid_cost_signed 1 1 (fun _ => -2) (fun _ => 3) (by norm_num)
    (fun t _ => by norm_num) 0 (by norm_num) (by norm_num) (by norm_num)).1

/-- Element access into an upsampled profile within the first tiled day. -/
theorem upsample_profile_getD (p : List ℚ) (sph d i : ℕ)
    (hi : i < p.length * sph) (hd : 0 < d) :
    (upsample_profile p sph d).getD i 0
      = interpHourly p
          ((i : ℚ) * ((p.length : ℚ) - 1) / (((p.length * sph : ℕ) : ℚ) - 1)) := by
  obtain ⟨e, rfl⟩ : ∃ e, d = e + 1 := ⟨d - 1, by omega⟩
  simp only [upsample_profile]
  rw [List.replicate_succ, List.flatten_cons]
  rw [List.getD_append _ _ _ i (by simpa using hi)]
  rw [List.getD_eq_getElem?_getD, List.getElem?_map, List.getElem?_range hi]
  simp

/-- The interior branch of `np.interp` on integer knots. -/
theorem interpHourly_mid (fp : List ℚ) (x : ℚ) (h0 : ¬ x ≤ 0)
    (h1 : ¬ ((fp.length : ℚ) - 1) ≤ x) :
    interpHourly fp x
      = fp.getD (⌊x⌋).toNat 0
        + (x - ((⌊x⌋).toNat : ℚ))
          * (fp.getD ((⌊x⌋).toNat + 1) 0 - fp.getD (⌊x⌋).toNat 0) := by
  unfold interpHourly
  rw [if_neg h0, if_neg h1]

/-- C5 (amended): when every base series has exactly 24 points (one base
day), every normalised series has length exactly
`T = num_days * 24 * steps_per_hour`, so every access in `[0, T)` is in
range. -/
theorem normalized_length_amended (sph d : ℕ) (load price solar : List ℚ)
    (hl : load.length = 24) (hp : price.length = 24) (hs : solar.length = 24) :
    (normalizeLoadPrice (d * 24 * sph) sph d load price).1.length = d * 24 * sph
    ∧ (normalizeLoadPrice (d * 24 * sph) sph d load price).2.length = d * 24 * sph
    ∧ (normalizeSeries (d * 24 * sph) sph d solar).length = d * 24 * sph := by
  unfold normalizeLoadPrice normalizeSeries
  refine ⟨?_, ?_, ?_⟩
  · split_ifs with h
    · exact h
    · rw [upsample_profile_length, hl]; ring
  · split_ifs with h
    · rw [hp]; exact hl ▸ h
    · rw [upsample_profile_length, hp]; ring
  · split_ifs with h
    · exact h
    · rw [upsample_profile_length, hs]; ring

/-- Witness for C5 at a two-day 30-minute-resolution instance with 24-point
base series. -/
theorem normalized_length_amended_witness :
    (normalizeLoadPrice (2 * 24 * 2) 2 2 (List.replicate 24 (0 : ℚ))
        (List.replicate 24 (0 : ℚ))).1.length = 2 * 24 * 2
    ∧ (normalizeSeries (2 * 24 * 2) 2 2 (List.replicate 24 (0 : ℚ))).length
        = 2 * 24 * 2 := by
  have h := normalized_length_amended 2 2 (List.replicate 24 (0 : ℚ))
    (List.replicate 24 (0 : ℚ)) (List.replicate 24 (0 : ℚ))
    (by simp) (by simp) (by simp)
  exact ⟨h.1, h.2.2⟩

/-- C5 counterexample: a 25-point load/price pair is accepted (at least 24
points) and, with one day at 60-minute resolution (T = 24), is normalised to
a series of length 25 — not length exactly T. -/
theorem normalized_length_counterexample :
    ¬ (normalizeLoadPrice 24 1 1 c5Load c5Load).1.length = 24 := by
  norm_num [normalizeLoadPrice, c5Load, upsample_profile_length]

/-- C6 (amended): the pass-through is branch-local — a LOAD series of length
exactly T passes through unchanged together with the price series in the
single-load variant, and any series of length exactly T passes through
unchanged under the per-series branch (solar in both variants; each load,
price and solar in the multi-load variant); but a full-length price series is
resampled, and generally altered, in the single-load variant whenever the
load series does not have length T (see the counterexample). -/
theorem normalization_passthrough_amended (expected sph d : ℕ)
    (load price solar : List ℚ) :
    (load.length = expected →
      normalizeLoadPrice expected sph d load price = (load, price))
    ∧ (solar.length = expected → normalizeSeries expected sph d solar = solar) := by
  constructor
  · intro h
    unfold normalizeLoadPrice
    rw [if_pos h]
  · intro h
    unfold normalizeSeries
    rw [if_pos h]

/-- Witness for C6 on concrete 24-point series at T = 24. -/
theorem normalization_passthrough_amended_witness :
    normalizeLoadPrice 24 1 1 c6Load c6Load = (c6Load, c6Load)
    ∧ normalizeSeries 24 1 1 c6Load = c6Load :=
  ⟨(normalization_passthrough_amended 24 1 1 c6Load c6Load c6Load).1
      (by simp [c6Load]),
   (normalization_passthrough_amended 24 1 1 c6Load c6Load c6Load).2
      (by simp [c6Load])⟩

/-- C6 counterexample: with one day at 30-minute resolution (T = 48), a price
series of length exactly T = 48 is nevertheless resampled (because the load
series has 24 points, not 48) and altered: the consumed value at index 1 is
47, not the original 95. -/
theorem normalization_passthrough_counterexample :
    c6Load.length = 24 ∧ c6Price.length = 48
    ∧ c6Price.getD 1 0 = 95
    ∧ (normalizeLoadPrice 48 2 1 c6Load c6Price).2.getD 1 0 = 47 := by
  have hlen6 : c6Load.length = 24 := by simp [c6Load]
  have hlenp : c6Price.length = 48 := by simp [c6Price]
  refine ⟨hlen6, hlenp, by simp [c6Price], ?_⟩
  have hbranch : (normalizeLoadPrice 48 2 1 c6Load c6Price).2
      = upsample_profile c6Price 2 1 := by
    unfold normalizeLoadPrice
    rw [if_neg (by rw [hlen6]; norm_num)]
  rw [hbranch,
    upsample_profile_getD c6Price 2 1 1 (by rw [hlenp]; norm_num) (by norm_num)]
  have harg : ((1 : ℕ) : ℚ) * ((c6Price.length : ℚ) - 1)
      / (((c6Price.length * 2 : ℕ) : ℚ) - 1) = 47 / 95 := by
    rw [hlenp]
    norm_num
  rw [harg,
    interpHourly_mid c6Price (47 / 95) (by norm_num) (by rw [hlenp]; norm_num)]
  have hfl : (⌊(47 / 95 : ℚ)⌋).toNat = 0 := by
    have h0 : ⌊(47 / 95 : ℚ)⌋ = 0 := by
      rw [Int.floor_eq_zero_iff, Set.mem_Ico]
      norm_num
    rw [h0]
    rfl
  rw [hfl]
  norm_num [c6Price]

/-- C7 (amended): scalar normalisation clamps `num_days` into [1,30] and the
fuel-cell efficiency fraction into [0,1] as the spec says, but
`resolution_minutes` is kept only when it is exactly 15, 30 or 60 (any other
value becomes the default 30 — no nearest-value snapping), `grid_connection`
is floored at 100 kW, battery capacity at 1000 Wh and battery voltage at 12 V
rather than at 0, and the remaining capacities and costs are clamped to
`max(0, value)`. -/
theorem scalar_clamp_amended (n r : Int) (g s b v x e : ℚ) :
    (1 ≤ normNumDays n ∧ normNumDays n ≤ 30
      ∧ (1 ≤ n → n ≤ 30 → normNumDays n = n))
    ∧ ((r = 15 ∨ r = 30 ∨ r = 60) → normTimeResolution r = r)
    ∧ (r ≠ 15 → r ≠ 30 → r ≠ 60 → normTimeResolution r = 30)
    ∧ (100 ≤ normGridConnection g ∧ (100 ≤ g → normGridConnection g = g))
    ∧ (0 ≤ normSolarConnection s ∧ (0 ≤ s → normSolarConnection s = s))
    ∧ (1000 ≤ normBatteryCapacityWh b ∧ (1000 ≤ b → normBatteryCapacityWh b = b))
    ∧ (12 ≤ normBatteryVoltage v ∧ (12 ≤ v → normBatteryVoltage v = v))
    ∧ (0 ≤ normNonnegative x ∧ (0 ≤ x → normNonnegative x = x))
    ∧ (0 ≤ normEfficiencyFraction e ∧ normEfficiencyFraction e ≤ 1
        ∧ (0 ≤ e → e ≤ 1 → normEfficiencyFraction e = e)) := by
  refine ⟨⟨le_max_left 1 _, max_le (by norm_num) (min_le_left 30 n), ?_⟩,
    ?_, ?_, ⟨le_max_left 100 g, fun h => max_eq_right h⟩,
    ⟨le_max_left 0 s, fun h => max_eq_right h⟩,
    ⟨le_max_left 1000 b, fun h => max_eq_right h⟩,
    ⟨le_max_left 12 v, fun h => max_eq_right h⟩,
    ⟨le_max_left 0 x, fun h => max_eq_right h⟩,
    ⟨le_max_left 0 _, max_le (by norm_num) (min_le_left 1 e), ?_⟩⟩
  · intro h1 h30
    unfold normNumDays
    rw [min_eq_right h30, max_eq_right h1]
  · intro h
    unfold normTimeResolution
    rw [if_pos h]
  · intro h15 h30 h60
    unfold normTimeResolution
    rw [if_neg (by simp [h15, h30, h60])]
  · intro he0 he1
    unfold normEfficiencyFraction
    rw [min_eq_right he1, max_eq_right he0]

/-- Witness for C7 at concrete raw inputs. -/
theorem scalar_clamp_amended_witness :
    normTimeResolution 15 = 15 ∧ normTimeResolution 59 = 30
    ∧ normGridConnection 200 = 200
    ∧ normEfficiencyFraction (1 / 2) = 1 / 2 := by
  refine ⟨?_, ?_, ?_, ?_⟩
  · exact (scalar_clamp_amended 1 15 0 0 0 0 0 0).2.1 (Or.inl rfl)
  · exact (scalar_clamp_amended 1 59 0 0 0 0 0 0).2.2.1
      (by decide) (by decide) (by decide)
  · exact (scalar_clamp_amended 1 15 200 0 0 0 0 0).2.2.2.1.2 (by norm_num)
  · exact (scalar_clamp_amended 1 15 0 0 0 0 0 (1 / 2)).2.2.2.2.2.2.2.2.2.2
      (by norm_num) (by norm_num)

/-- C7 counterexample: the code's scalar normalisation differs from the
spec's clamp mapping — raw resolution 59 becomes the default 30 although the
nearest of {15,30,60} is 60; a 50 kW grid connection is floored to 100 kW
although `max(0, 50) = 50`; and a 0 Wh battery is floored to 1000 Wh although
`max(0, 0) = 0`. -/
theorem scalar_clamp_counterexample :
    normTimeResolution 59 = 30 ∧ spec_snapResolution 59 = 60
    ∧ normGridConnection 50 = 100 ∧ spec_clampNonneg 50 = 50
    ∧ normBatteryCapacityWh 0 = 1000 ∧ spec_clampNonneg 0 = 0 := by
  refine ⟨by decide, by decide, ?_, ?_, ?_, ?_⟩
  · unfold normGridConnection
    rw [max_eq_left (by norm_num)]
  · unfold spec_clampNonneg
    rw [max_eq_right (by norm_num)]
  · unfold normBatteryCapacityWh
    rw [max_eq_left (by norm_num)]
  · unfold spec_clampNonneg
    rw [max_eq_right le_rfl]

end VidyutAI
